import Mathlib

/-!
Verification of the PokerConcepts hand-classification and hand-comparison
engine: a shallow embedding of `cards.py`, `cardUtils.py`, `ranks.py` and
`pokerLogic.py`, followed by theorems about the embedded definitions.

Conventions of the embedding:
- Python `Face`/`Suit` enums become Lean inductives; `Card` a structure.
- Hands are `List Card` (the source's `Hand` is a list wrapper).
- Python functions that can raise (`max`/`sorted(...)[−1]` over an empty
  collection propagate `ValueError`/`IndexError`) return `Option`: `none`
  models the raised exception, `some` a normal return.
- Python `dict` (insertion-ordered) becomes an association list whose keys
  appear in first-occurrence order.
- Rank validators are closures `List Card → Option Bool`; a rank's
  `is_rank` runs them in order, short-circuiting on the first `false`
  (as the source's early `return False`) and propagating an exception.
-/

namespace PokerConcepts

/-! ## cards.py -/

inductive Face where
  | TWO | THREE | FOUR | FIVE | SIX | SEVEN | EIGHT | NINE | TEN
  | JACK | QUEEN | KING | ACE
deriving DecidableEq, Fintype, Repr

def Face.value : Face → Nat
  | .TWO => 2
  | .THREE => 3
  | .FOUR => 4
  | .FIVE => 5
  | .SIX => 6
  | .SEVEN => 7
  | .EIGHT => 8
  | .NINE => 9
  | .TEN => 10
  | .JACK => 11
  | .QUEEN => 12
  | .KING => 13
  | .ACE => 14

inductive Suit where
  | SPADES | HEARTS | CLOVERS | DIAMONDS
deriving DecidableEq, Fintype, Repr

def MIN_VALUE : Nat := 2
def MAX_VALUE : Nat := 14

structure Card where
  face : Face
  suit : Suit
deriving DecidableEq, Repr

def Card.value (c : Card) : Nat := c.face.value

/-- `Face(value)` in Python: the face with the given numeric value, or a
`ValueError` (here `none`) when no face has that value. -/
def get_face_from_value (v : Nat) : Option Face :=
  match v with
  | 2 => some .TWO
  | 3 => some .THREE
  | 4 => some .FOUR
  | 5 => some .FIVE
  | 6 => some .SIX
  | 7 => some .SEVEN
  | 8 => some .EIGHT
  | 9 => some .NINE
  | 10 => some .TEN
  | 11 => some .JACK
  | 12 => some .QUEEN
  | 13 => some .KING
  | 14 => some .ACE
  | _ => none

/-- `get_next_face`: `Face(face.value + 1)`, falling back to
`Face(MIN_VALUE)` when that raises. -/
def get_next_face (f : Face) : Face :=
  (get_face_from_value (f.value + 1)).getD Face.TWO

/-- `get_previous_face`: `Face(face.value - 1)`, falling back to
`Face(MAX_VALUE)` when that raises. -/
def get_previous_face (f : Face) : Face :=
  (get_face_from_value (f.value - 1)).getD Face.ACE

/-! ## Generic helpers

`firstOcc` models the key order of a Python `dict` / the iteration used to
build `Counter`s: each element once, in order of first occurrence.
`pymax` models Python's `max(iterable)` (raises on empty).
`insertionSort` models Python's stable `sorted(iterable, key, reverse)`;
the comparator `le x y` means "x may be placed before y", so ties keep
their original relative order, as in CPython's stable sort. -/

def firstOcc {α : Type} [DecidableEq α] (l : List α) : List α :=
  l.foldl (fun acc x => if x ∈ acc then acc else acc ++ [x]) []

def pymax : List Nat → Option Nat
  | [] => none
  | x :: xs => some (xs.foldl max x)

def insertSorted {α : Type} (le : α → α → Bool) (x : α) : List α → List α
  | [] => [x]
  | y :: ys => if le x y then x :: y :: ys else y :: insertSorted le x ys

def insertionSort {α : Type} (le : α → α → Bool) (l : List α) : List α :=
  l.foldr (insertSorted le) []

/-! ## cardUtils.py -/

def get_faces (hand : List Card) : List Face := hand.map Card.face

def get_suits (hand : List Card) : List Suit := hand.map Card.suit

/-- `Hand.get_groups_by_face`: dict from face to the cards bearing it, keys
in first-occurrence order, each group in hand order. -/
def get_groups_by_face (hand : List Card) : List (Face × List Card) :=
  (firstOcc (get_faces hand)).map
    (fun f => (f, hand.filter (fun c => c.face = f)))

/-- `Hand.get_groups_by_suit`: dict from suit to the cards bearing it. -/
def get_groups_by_suit (hand : List Card) : List (Suit × List Card) :=
  (firstOcc (get_suits hand)).map
    (fun s => (s, hand.filter (fun c => c.suit = s)))

/-- Sort key of `sorted_starters`: `starter.value`, except Ace maps to
`MIN_VALUE - 1` so that it sorts below Two. -/
def starter_key (f : Face) : Nat :=
  if f = Face.ACE then MIN_VALUE - 1 else f.value

/-- `sorted_starters`: starters sorted ascending by precedence
(A, 2, 3, ..., K); `reverse` flips to descending. -/
def sorted_starters (l : List Face) (reverse : Bool) : List Face :=
  insertionSort
    (fun a b => if reverse then starter_key b ≤ starter_key a
                else starter_key a ≤ starter_key b) l

/-- `get_max_straight_starter`: last element of the ascending sort
(`sorted_starters(starters)[-1]`; `none` models the `IndexError` on an
empty list). -/
def get_max_straight_starter (l : List Face) : Option Face :=
  (sorted_starters l false).getLast?

/-- `is_straight_starter_greater`. -/
def is_straight_starter_greater (s1 s2 : Face) : Bool :=
  if s1 = s2 then false
  else if s1 ≠ Face.ACE ∧ s2 ≠ Face.ACE then decide (s1.value > s2.value)
  else decide (s1 ≠ Face.ACE)

/-- `is_straight_starter_lesser`. -/
def is_straight_starter_lesser (s1 s2 : Face) : Bool :=
  if s1 = s2 then false
  else if s1 ≠ Face.ACE ∧ s2 ≠ Face.ACE then decide (s1.value < s2.value)
  else decide (s1 = Face.ACE)

/-- Loop body of `get_starters_of_sequences_including_face`: walk backward
`fuel` times from `starter`, breaking when the current face was already
collected, skipping faces in `invalid`. -/
def starters_walk (invalid : List Face) : Face → Nat → List Face → List Face
  | _, 0, acc => acc
  | starter, n + 1, acc =>
    if starter ∈ acc then acc
    else
      starters_walk invalid (get_previous_face starter) n
        (if starter ∈ invalid then acc else acc ++ [starter])

/-- `get_starters_of_sequences_including_face` (result is a Python set;
we keep the collection order, only membership matters). -/
def get_starters_of_sequences_including_face (face : Face)
    (sequence_length : Nat) (invalid : List Face) : List Face :=
  starters_walk invalid face sequence_length []

/-- Key set of the `Counter` built by
`get_starters_of_sequences_including_faces`: union over the distinct
input faces of each face's starter set. -/
def starter_keys (faces : List Face) (sequence_length : Nat)
    (invalid : List Face) : List Face :=
  firstOcc ((firstOcc faces).foldr
    (fun f acc =>
      get_starters_of_sequences_including_face f sequence_length invalid ++ acc)
    [])

/-- Multiplicity the `Counter` assigns to starter `s`: how many distinct
input faces have `s` in their starter set. -/
def starter_count (faces : List Face) (sequence_length : Nat)
    (invalid : List Face) (s : Face) : Nat :=
  ((firstOcc faces).filter
    (fun f =>
      s ∈ get_starters_of_sequences_including_face f sequence_length invalid)).length

/-- `get_most_frequent_starter_of_sequences_including_faces`:
`max(starters.values())` (`none` = `ValueError` on an empty counter),
then the most precedent starter among those attaining the maximum. -/
def get_most_frequent_starter_of_sequences_including_faces
    (faces : List Face) (sequence_length : Nat) (invalid : List Face) :
    Option Face :=
  let keys := starter_keys faces sequence_length invalid
  let count := starter_count faces sequence_length invalid
  match pymax (keys.map count) with
  | none => none
  | some max_frequency =>
    get_max_straight_starter (keys.filter (fun f => count f = max_frequency))

/-- Sort key of `get_group_items_by_size_and_value`: primarily the group's
size, secondarily the value of its greatest card
(`sorted(tup[1], reverse=True)[0].value`; for the never-occurring empty
group, where the source would raise `IndexError`, the key defaults to 0). -/
def group_item_key (g : List Card) : Nat × Nat :=
  (g.length,
    (((insertionSort (fun c d : Card => d.value ≤ c.value) g).head?).map
      Card.value).getD 0)

def lex_le (a b : Nat × Nat) : Bool :=
  decide (a.1 < b.1 ∨ (a.1 = b.1 ∧ a.2 ≤ b.2))

/-- `get_group_items_by_size_and_value`: the dict items sorted (stably) by
`group_item_key`, descending when `reverse` is set. -/
def get_group_items_by_size_and_value (face_group : List (Face × List Card))
    (reverse : Bool) : List (Face × List Card) :=
  insertionSort
    (fun a b => if reverse then lex_le (group_item_key b.2) (group_item_key a.2)
                else lex_le (group_item_key a.2) (group_item_key b.2))
    face_group

/-- `get_max_face_frequency`: `max` of the face-group sizes (`none` models
the `ValueError` raised for an empty collection of cards). -/
def get_max_face_frequency (cards : List Card) : Option Nat :=
  pymax ((get_groups_by_face cards).map (fun g => g.2.length))

/-- `get_max_suit_frequency`: `max` of the suit-group sizes (`none` models
the `ValueError` raised for an empty collection of cards). -/
def get_max_suit_frequency (cards : List Card) : Option Nat :=
  pymax ((get_groups_by_suit cards).map (fun g => g.2.length))

/-! ## ranks.py

A validator may raise (the sequence validator calls
`get_most_frequent_starter_of_sequences_including_faces`, which raises on
an empty counter), so validators return `Option Bool`. -/

def RankValidator : Type := List Card → Option Bool

structure Rank where
  name : String
  value : Nat
  validators : List RankValidator

/-- Body of `Rank.is_rank`: run the validators in order; `return False` at
the first failing one, propagate a raised exception, else `True`. -/
def run_validators : List RankValidator → List Card → Option Bool
  | [], _ => some true
  | v :: vs, cards =>
    match v cards with
    | none => none
    | some false => some false
    | some true => run_validators vs cards

/-- `Rank.is_rank`. -/
def Rank.is_rank (r : Rank) (cards : List Card) : Option Bool :=
  run_validators r.validators cards

/-- `Rank.none()`: a null rank (no validators; `validators or []`). -/
def Rank.none : Rank := ⟨"None", 0, []⟩

/-- `has_required_group`: the number of distinct attributes occurring
exactly `group_size` times equals `num_of_groups`. -/
def has_required_group {α : Type} [DecidableEq α] (attributes : List α)
    (group_size num_of_groups : Nat) : Bool :=
  decide ((((firstOcc attributes).filter
    (fun a => attributes.count a = group_size)).length) = num_of_groups)

/-- `create_length_validator`. -/
def create_length_validator (required_length : Nat) : RankValidator :=
  fun cards => some (decide (cards.length = required_length))

/-- `create_sequence_validator`'s inner loop: `sequence_length` times,
check the current face is among the hand's faces, then advance. -/
def sequence_run_check (faces : List Face) : Face → Nat → Bool
  | _, 0 => true
  | starter, n + 1 =>
    decide (starter ∈ faces) && sequence_run_check faces (get_next_face starter) n

/-- `create_sequence_validator`: find the most frequent sequence starter
for the hand's own length, then check the run it starts is contained in
the hand's faces. A raised `ValueError` from the starter search
propagates. -/
def create_sequence_validator (invalid_starters : List Face) : RankValidator :=
  fun cards =>
    let sequence_length := cards.length
    let faces := get_faces cards
    match get_most_frequent_starter_of_sequences_including_faces
        faces sequence_length invalid_starters with
    | none => none
    | some starter => some (sequence_run_check faces starter sequence_length)

/-- `create_face_validator`: every required face appears in the hand. -/
def create_face_validator (required_faces : List Face) : RankValidator :=
  fun cards => some (required_faces.all (fun f => decide (f ∈ get_faces cards)))

/-- `create_suit_validator`: every required suit appears in the hand. -/
def create_suit_validator (required_suits : List Suit) : RankValidator :=
  fun cards => some (required_suits.all (fun s => decide (s ∈ get_suits cards)))

/-- `create_face_frequency_validator` (the dict of required frequencies is
an association list `(group_size, required_num_of_groups)`). -/
def create_face_frequency_validator (required_frequencies : List (Nat × Nat)) :
    RankValidator :=
  fun cards =>
    some (required_frequencies.all
      (fun p => has_required_group (get_faces cards) p.1 p.2))

/-- `create_suit_frequency_validator`. -/
def create_suit_frequency_validator (required_frequencies : List (Nat × Nat)) :
    RankValidator :=
  fun cards =>
    some (required_frequencies.all
      (fun p => has_required_group (get_suits cards) p.1 p.2))

def REQUIRED_LENGTH : Nat := 5

def INVALID_STRAIGHT_STARTERS : List Face := [.JACK, .QUEEN, .KING]

def ROYAL_FACES : List Face := [.TEN, .JACK, .QUEEN, .KING, .ACE]

def NULL_RANK : Rank := ⟨"None", 0, []⟩

def HIGH : Rank :=
  ⟨"High Card", 1, [create_length_validator REQUIRED_LENGTH]⟩

def PAIR : Rank :=
  ⟨"Pair", 2,
    [create_length_validator REQUIRED_LENGTH,
     create_face_frequency_validator [(2, 1)]]⟩

def TWO_PAIR : Rank :=
  ⟨"Two Pair", 3,
    [create_length_validator REQUIRED_LENGTH,
     create_face_frequency_validator [(2, 2)]]⟩

def THREE_OF_A_KIND : Rank :=
  ⟨"Three of a Kind", 4,
    [create_length_validator REQUIRED_LENGTH,
     create_face_frequency_validator [(3, 1)]]⟩

def STRAIGHT : Rank :=
  ⟨"Straight", 5,
    [create_length_validator REQUIRED_LENGTH,
     create_sequence_validator INVALID_STRAIGHT_STARTERS]⟩

def FLUSH : Rank :=
  ⟨"Flush", 6,
    [create_length_validator REQUIRED_LENGTH,
     create_suit_frequency_validator [(REQUIRED_LENGTH, 1)]]⟩

def FULL_HOUSE : Rank :=
  ⟨"Full House", 7,
    [create_length_validator REQUIRED_LENGTH,
     create_face_frequency_validator [(3, 1), (2, 1)]]⟩

def FOUR_OF_A_KIND : Rank :=
  ⟨"Four of a Kind", 8,
    [create_length_validator REQUIRED_LENGTH,
     create_face_frequency_validator [(4, 1)]]⟩

def STRAIGHT_FLUSH : Rank :=
  ⟨"Straight Flush", 9,
    [create_length_validator REQUIRED_LENGTH,
     create_sequence_validator INVALID_STRAIGHT_STARTERS,
     create_suit_frequency_validator [(REQUIRED_LENGTH, 1)]]⟩

def ROYAL_FLUSH : Rank :=
  ⟨"Royal Flush", 10,
    [create_length_validator REQUIRED_LENGTH,
     create_sequence_validator INVALID_STRAIGHT_STARTERS,
     create_suit_frequency_validator [(REQUIRED_LENGTH, 1)],
     create_face_validator ROYAL_FACES]⟩

def DEFAULT_RANKS : List Rank :=
  [ROYAL_FLUSH, STRAIGHT_FLUSH, FOUR_OF_A_KIND, FULL_HOUSE, FLUSH,
   STRAIGHT, THREE_OF_A_KIND, TWO_PAIR, PAIR, HIGH]

/-- Loop of `get_rank` over an explicit candidate list: first rank whose
`is_rank` returns `True`, else the null rank; an exception propagates. -/
def get_rank_from (cards : List Card) : List Rank → Option Rank
  | [] => some NULL_RANK
  | r :: rest =>
    match r.is_rank cards with
    | none => none
    | some true => some r
    | some false => get_rank_from cards rest

/-- `get_rank(cards)` with its `ranks` parameter omitted (or any falsy
value): `ranks or DEFAULT_RANKS` selects the default catalog. -/
def get_rank (cards : List Card) : Option Rank :=
  get_rank_from cards DEFAULT_RANKS

/-! ## pokerLogic.py -/

inductive Comparison where
  | GREATER | EQUAL | LESSER
deriving DecidableEq, Repr

/-- The inverse of a comparison outcome (GREATER ↔ LESSER, EQUAL ↔ EQUAL),
used to state the antisymmetry properties. -/
def comparison_inverse : Comparison → Comparison
  | .GREATER => .LESSER
  | .EQUAL => .EQUAL
  | .LESSER => .GREATER

def FACE_FREQUENCY_RANKS : List Rank :=
  [HIGH, PAIR, TWO_PAIR, THREE_OF_A_KIND, FULL_HOUSE, FOUR_OF_A_KIND]

def SEQUENTIAL_RANKS : List Rank := [STRAIGHT, STRAIGHT_FLUSH, ROYAL_FLUSH]

def SUIT_FREQUENCY_RANKS : List Rank := [FLUSH]

/-- Python's `rank in tuple_of_ranks`: membership decided by `Rank.__eq__`,
which compares the `value` fields. -/
def rank_mem (r : Rank) (l : List Rank) : Bool :=
  l.any (fun s => decide (s.value = r.value))

/-- `compare_group_items`: primarily by group size, secondarily by face
value. -/
def compare_group_items (gi1 gi2 : Face × List Card) : Comparison :=
  if gi1.2.length > gi2.2.length ∨
      (gi1.2.length = gi2.2.length ∧ gi1.1.value > gi2.1.value) then
    .GREATER
  else if gi1.2.length < gi2.2.length ∨
      (gi1.2.length = gi2.2.length ∧ gi1.1.value < gi2.1.value) then
    .LESSER
  else
    .EQUAL

/-- `compare_length`. -/
def compare_length {α β : Type} (it1 : List α) (it2 : List β) : Comparison :=
  if it1.length > it2.length then .GREATER
  else if it1.length < it2.length then .LESSER
  else .EQUAL

/-- Loop of `compare_by_face_frequency` over the zipped group items:
first non-EQUAL pairwise comparison, else the supplied fallback. -/
def compare_groups_loop :
    List ((Face × List Card) × (Face × List Card)) → Comparison → Comparison
  | [], dflt => dflt
  | (x, y) :: rest, dflt =>
    match compare_group_items x y with
    | .EQUAL => compare_groups_loop rest dflt
    | c => c

/-- `compare_by_face_frequency`. -/
def compare_by_face_frequency (incumbent_hand challenger_hand : List Card) :
    Comparison :=
  let incumbent_groups := get_groups_by_face incumbent_hand
  let challenger_groups := get_groups_by_face challenger_hand
  compare_groups_loop
    ((get_group_items_by_size_and_value incumbent_groups true).zip
      (get_group_items_by_size_and_value challenger_groups true))
    (compare_length incumbent_groups challenger_groups)

/-- `compare_by_straight_starter` (an exception in either starter search
propagates). -/
def compare_by_straight_starter (incumbent_hand challenger_hand : List Card) :
    Option Comparison :=
  match
    get_most_frequent_starter_of_sequences_including_faces
      (get_faces incumbent_hand) REQUIRED_LENGTH INVALID_STRAIGHT_STARTERS,
    get_most_frequent_starter_of_sequences_including_faces
      (get_faces challenger_hand) REQUIRED_LENGTH INVALID_STRAIGHT_STARTERS with
  | some inc_starter, some cha_starter =>
    some (if inc_starter = cha_starter then .EQUAL
          else if is_straight_starter_greater inc_starter cha_starter then .GREATER
          else .LESSER)
  | _, _ => none

/-- Loop of `compare_by_value` over the zipped sorted hands. -/
def compare_cards_loop : List (Card × Card) → Comparison → Comparison
  | [], dflt => dflt
  | (x, y) :: rest, dflt =>
    if x.value > y.value then .GREATER
    else if x.value < y.value then .LESSER
    else compare_cards_loop rest dflt

/-- `compare_by_value`: both hands sorted descending by raw card value
(`sorted(hand, reverse=True)`, a stable sort on `Card.__lt__`). -/
def compare_by_value (incumbent_hand challenger_hand : List Card) : Comparison :=
  let sorted_incumbent :=
    insertionSort (fun c d : Card => d.value ≤ c.value) incumbent_hand
  let sorted_challenger :=
    insertionSort (fun c d : Card => d.value ≤ c.value) challenger_hand
  compare_cards_loop (sorted_incumbent.zip sorted_challenger)
    (compare_length incumbent_hand challenger_hand)

/-- `compare_hands` (an exception raised while classifying either hand, or
in a tie-break, propagates). -/
def compare_hands (incumbent_hand challenger_hand : List Card) :
    Option Comparison :=
  match get_rank incumbent_hand, get_rank challenger_hand with
  | some incumbent_rank, some challenger_rank =>
    if incumbent_rank.value > challenger_rank.value then some .GREATER
    else if incumbent_rank.value < challenger_rank.value then some .LESSER
    else if rank_mem incumbent_rank FACE_FREQUENCY_RANKS then
      some (compare_by_face_frequency incumbent_hand challenger_hand)
    else if rank_mem incumbent_rank SEQUENTIAL_RANKS then
      compare_by_straight_starter incumbent_hand challenger_hand
    else
      some (compare_by_value incumbent_hand challenger_hand)
  | _, _ => none

/-! ## Supporting lemmas -/

theorem mem_foldl_firstOcc {α : Type} [DecidableEq α] (l : List α) :
    ∀ (acc : List α) (a : α),
      a ∈ l.foldl (fun acc x => if x ∈ acc then acc else acc ++ [x]) acc ↔
        a ∈ acc ∨ a ∈ l := by
  induction l with
  | nil => simp
  | cons x l ih =>
    intro acc a
    rw [List.foldl_cons, ih]
    by_cases hx : x ∈ acc
    · simp only [if_pos hx, List.mem_cons]
      constructor
      · rintro (h | h)
        · exact Or.inl h
        · exact Or.inr (Or.inr h)
      · rintro (h | rfl | h)
        · exact Or.inl h
        · exact Or.inl hx
        · exact Or.inr h
    · simp only [if_neg hx, List.mem_append, List.mem_singleton, List.mem_cons]
      tauto

theorem mem_firstOcc {α : Type} [DecidableEq α] (l : List α) (a : α) :
    a ∈ firstOcc l ↔ a ∈ l := by
  rw [firstOcc, mem_foldl_firstOcc]
  simp

theorem firstOcc_ne_nil {α : Type} [DecidableEq α] {l : List α} (h : l ≠ []) :
    firstOcc l ≠ [] := by
  obtain ⟨a, ha⟩ := List.exists_mem_of_ne_nil l h
  exact List.ne_nil_of_mem ((mem_firstOcc l a).mpr ha)

theorem foldl_max_mem (xs : List Nat) : ∀ x : Nat, xs.foldl max x ∈ x :: xs := by
  induction xs with
  | nil => simp
  | cons y ys ih =>
    intro x
    rw [List.foldl_cons]
    have hm := ih (max x y)
    rcases List.mem_cons.mp hm with hm | hm
    · rcases max_choice x y with h | h
      · rw [hm, h]
        exact List.mem_cons_self _ _
      · rw [hm, h]
        exact List.mem_cons_of_mem _ (List.mem_cons_self _ _)
    · exact List.mem_cons_of_mem _ (List.mem_cons_of_mem _ hm)

theorem pymax_some {l : List Nat} (h : l ≠ []) :
    ∃ m, pymax l = some m ∧ m ∈ l := by
  match l, h with
  | x :: xs, _ => exact ⟨xs.foldl max x, rfl, foldl_max_mem xs x⟩

theorem insertSorted_length {α : Type} (le : α → α → Bool) (x : α)
    (l : List α) : (insertSorted le x l).length = l.length + 1 := by
  induction l with
  | nil => rfl
  | cons y ys ih =>
    rw [insertSorted]
    by_cases h : le x y
    · simp [h]
    · simp [h, ih]

theorem insertionSort_length {α : Type} (le : α → α → Bool) (l : List α) :
    (insertionSort le l).length = l.length := by
  induction l with
  | nil => rfl
  | cons x xs ih =>
    rw [insertionSort, List.foldr_cons]
    rw [insertionSort] at ih
    rw [insertSorted_length, ih, List.length_cons]

theorem getLast?_some_of_ne_nil {α : Type} {l : List α} (h : l ≠ []) :
    ∃ a, l.getLast? = some a := by
  match l, h with
  | x :: xs, _ => exact ⟨(x :: xs).getLast (by simp), List.getLast?_eq_getLast _ _⟩

theorem get_max_straight_starter_some {l : List Face} (h : l ≠ []) :
    ∃ f, get_max_straight_starter l = some f := by
  apply getLast?_some_of_ne_nil
  intro hnil
  have := insertionSort_length
    (fun a b => if false = true then starter_key b ≤ starter_key a
                else starter_key a ≤ starter_key b) l
  rw [show sorted_starters l false = insertionSort
    (fun a b => if false = true then starter_key b ≤ starter_key a
                else starter_key a ≤ starter_key b) l from rfl] at hnil
  rw [hnil] at this
  exact h (List.length_eq_zero.mp this.symm)

theorem starters_of_face_ne_nil :
    ∀ f : Face,
      get_starters_of_sequences_including_face f 5 INVALID_STRAIGHT_STARTERS ≠ [] := by
  decide

theorem mem_fold_starters (len : Nat) (inv : List Face) :
    ∀ (L : List Face) (f x : Face), f ∈ L →
      x ∈ get_starters_of_sequences_including_face f len inv →
      x ∈ L.foldr
        (fun g acc => get_starters_of_sequences_including_face g len inv ++ acc)
        [] := by
  intro L
  induction L with
  | nil => simp
  | cons g L ih =>
    intro f x hf hx
    rw [List.foldr_cons, List.mem_append]
    rcases List.mem_cons.mp hf with rfl | hf
    · exact Or.inl hx
    · exact Or.inr (ih f x hf hx)

theorem starter_keys_ne_nil {faces : List Face} (h : faces ≠ []) :
    starter_keys faces 5 INVALID_STRAIGHT_STARTERS ≠ [] := by
  obtain ⟨f, hf⟩ := List.exists_mem_of_ne_nil faces h
  obtain ⟨x, hx⟩ := List.exists_mem_of_ne_nil _ (starters_of_face_ne_nil f)
  apply firstOcc_ne_nil
  apply List.ne_nil_of_mem
  exact mem_fold_starters 5 INVALID_STRAIGHT_STARTERS _ f x
    ((mem_firstOcc faces f).mpr hf) hx

theorem get_most_frequent_starter_some {faces : List Face} (h : faces ≠ []) :
    ∃ s, get_most_frequent_starter_of_sequences_including_faces faces 5
      INVALID_STRAIGHT_STARTERS = some s := by
  have hkeys := starter_keys_ne_nil h
  have hmap : (starter_keys faces 5 INVALID_STRAIGHT_STARTERS).map
      (starter_count faces 5 INVALID_STRAIGHT_STARTERS) ≠ [] := by
    simpa using hkeys
  obtain ⟨m, hm, hmem⟩ := pymax_some hmap
  obtain ⟨k, hk, hck⟩ := List.mem_map.mp hmem
  have hfilter : (starter_keys faces 5 INVALID_STRAIGHT_STARTERS).filter
      (fun f => starter_count faces 5 INVALID_STRAIGHT_STARTERS f = m) ≠ [] := by
    apply List.ne_nil_of_mem (a := k)
    rw [List.mem_filter]
    exact ⟨hk, by simp [hck]⟩
  obtain ⟨s, hs⟩ := get_max_straight_starter_some hfilter
  refine ⟨s, ?_⟩
  unfold get_most_frequent_starter_of_sequences_including_faces
  simp only
  rw [hm]
  exact hs

/-! Stepping lemmas for `run_validators` and `get_rank_from`. -/

theorem run_validators_cons_none {v : RankValidator} {vs : List RankValidator}
    {cards : List Card} (h : v cards = none) :
    run_validators (v :: vs) cards = none := by
  simp only [run_validators]
  rw [h]

theorem run_validators_cons_false {v : RankValidator} {vs : List RankValidator}
    {cards : List Card} (h : v cards = some false) :
    run_validators (v :: vs) cards = some false := by
  simp only [run_validators]
  rw [h]

theorem run_validators_cons_true {v : RankValidator} {vs : List RankValidator}
    {cards : List Card} (h : v cards = some true) :
    run_validators (v :: vs) cards = run_validators vs cards := by
  simp only [run_validators]
  rw [h]

theorem run_validators_some {cards : List Card} :
    ∀ vs : List RankValidator, (∀ v ∈ vs, ∃ b, v cards = some b) →
      ∃ b, run_validators vs cards = some b := by
  intro vs
  induction vs with
  | nil => exact fun _ => ⟨true, rfl⟩
  | cons v vs ih =>
    intro h
    obtain ⟨b, hb⟩ := h v (List.mem_cons_self _ _)
    cases b
    · exact ⟨false, run_validators_cons_false hb⟩
    · rw [run_validators_cons_true hb]
      exact ih (fun w hw => h w (List.mem_cons_of_mem _ hw))

theorem run_validators_cons_eq_true {v : RankValidator}
    {vs : List RankValidator} {cards : List Card} :
    run_validators (v :: vs) cards = some true ↔
      v cards = some true ∧ run_validators vs cards = some true := by
  simp only [run_validators]
  cases h : v cards with
  | none => simp
  | some b => cases b <;> simp

theorem get_rank_from_cons_none {r : Rank} {rest : List Rank}
    {cards : List Card} (h : r.is_rank cards = none) :
    get_rank_from cards (r :: rest) = none := by
  simp only [get_rank_from]
  rw [h]

theorem get_rank_from_cons_true {r : Rank} {rest : List Rank}
    {cards : List Card} (h : r.is_rank cards = some true) :
    get_rank_from cards (r :: rest) = some r := by
  simp only [get_rank_from]
  rw [h]

theorem get_rank_from_cons_false {r : Rank} {rest : List Rank}
    {cards : List Card} (h : r.is_rank cards = some false) :
    get_rank_from cards (r :: rest) = get_rank_from cards rest := by
  simp only [get_rank_from]
  rw [h]

/-- Generic behaviour of the `get_rank` loop: when every candidate's
`is_rank` returns without raising, either every candidate rejected the
hand and the loop fell through to the null rank, or the list splits at
the first accepting rank, which is returned. -/
theorem get_rank_from_cases (cards : List Card) :
    ∀ ranks : List Rank, (∀ r ∈ ranks, ∃ b, r.is_rank cards = some b) →
      ((∀ r ∈ ranks, r.is_rank cards = some false) ∧
        get_rank_from cards ranks = some NULL_RANK) ∨
      (∃ pre r post, ranks = pre ++ r :: post ∧
        (∀ r' ∈ pre, r'.is_rank cards = some false) ∧
        r.is_rank cards = some true ∧
        get_rank_from cards ranks = some r) := by
  intro ranks
  induction ranks with
  | nil => exact fun _ => Or.inl ⟨by simp, rfl⟩
  | cons r rest ih =>
    intro h
    obtain ⟨b, hb⟩ := h r (List.mem_cons_self _ _)
    cases b
    · rcases ih (fun s hs => h s (List.mem_cons_of_mem _ hs)) with
        ⟨hall, hres⟩ | ⟨pre, s, post, hsplit, hpre, hs, hres⟩
      · refine Or.inl ⟨?_, by rw [get_rank_from_cons_false hb]; exact hres⟩
        intro s hs
        rcases List.mem_cons.mp hs with rfl | hs
        · exact hb
        · exact hall s hs
      · refine Or.inr ⟨r :: pre, s, post, by rw [hsplit]; rfl, ?_,
          hs, by rw [get_rank_from_cons_false hb]; exact hres⟩
        intro s' hs'
        rcases List.mem_cons.mp hs' with rfl | hs'
        · exact hb
        · exact hpre s' hs'
    · exact Or.inr ⟨[], r, rest, rfl, by simp, hb,
        get_rank_from_cons_true hb⟩

theorem get_faces_ne_nil {cards : List Card} (h : cards.length = 5) :
    get_faces cards ≠ [] := by
  intro hnil
  have : (get_faces cards).length = 5 := by simp [get_faces, h]
  rw [hnil] at this
  simp at this

theorem seq_validator_some {cards : List Card} (h : cards.length = 5) :
    ∃ b, create_sequence_validator INVALID_STRAIGHT_STARTERS cards = some b := by
  obtain ⟨s, hs⟩ := get_most_frequent_starter_some (get_faces_ne_nil h)
  refine ⟨sequence_run_check (get_faces cards) s cards.length, ?_⟩
  unfold create_sequence_validator
  simp only
  rw [h, hs]

theorem is_rank_default_some {cards : List Card} (h : cards.length = 5) :
    ∀ r ∈ DEFAULT_RANKS, ∃ b, r.is_rank cards = some b := by
  have hseq := seq_validator_some h
  intro r hr
  fin_cases hr <;>
    · apply run_validators_some
      intro v hv
      simp only [ROYAL_FLUSH, STRAIGHT_FLUSH, FOUR_OF_A_KIND, FULL_HOUSE,
        FLUSH, STRAIGHT, THREE_OF_A_KIND, TWO_PAIR, PAIR, HIGH] at hv
      fin_cases hv <;> first | exact hseq | exact ⟨_, rfl⟩

theorem high_is_rank_true {cards : List Card} (h : cards.length = 5) :
    HIGH.is_rank cards = some true := by
  show run_validators [create_length_validator REQUIRED_LENGTH] cards = some true
  rw [run_validators_cons_true]
  · rfl
  · simp [create_length_validator, REQUIRED_LENGTH, h]

/-- Behaviour of `get_rank` with the default catalog on a 5-card hand:
the catalog splits at a first accepting rank, which is returned, and it
is never the null rank. -/
theorem get_rank_len5_spec (cards : List Card) (h : cards.length = 5) :
    ∃ pre r post, DEFAULT_RANKS = pre ++ r :: post ∧
      (∀ r' ∈ pre, r'.is_rank cards = some false) ∧
      r.is_rank cards = some true ∧
      get_rank cards = some r ∧ r.value ≠ 0 := by
  rcases get_rank_from_cases cards DEFAULT_RANKS (is_rank_default_some h) with
    ⟨hall, _⟩ | ⟨pre, r, post, hsplit, hpre, hr, hres⟩
  · have hhigh := high_is_rank_true h
    have := hall HIGH (by simp [DEFAULT_RANKS])
    rw [this] at hhigh
    simp at hhigh
  · refine ⟨pre, r, post, hsplit, hpre, hr, hres, ?_⟩
    have hmem : r ∈ DEFAULT_RANKS := by
      rw [hsplit]
      exact List.mem_append.mpr (Or.inr (List.mem_cons_self _ _))
    fin_cases hmem <;> decide

theorem get_rank_len5_some {cards : List Card} (h : cards.length = 5) :
    ∃ r, get_rank cards = some r := by
  obtain ⟨_, r, _, _, _, _, hres, _⟩ := get_rank_len5_spec cards h
  exact ⟨r, hres⟩

/-! Antisymmetry of the comparison helpers. -/

theorem compare_group_items_antisym (x y : Face × List Card) :
    compare_group_items y x = comparison_inverse (compare_group_items x y) := by
  unfold compare_group_items
  split_ifs <;> first | rfl | omega

theorem compare_length_antisym {α β : Type} (l1 : List α) (l2 : List β) :
    compare_length l2 l1 = comparison_inverse (compare_length l1 l2) := by
  unfold compare_length
  split_ifs <;> first | rfl | omega

theorem compare_groups_loop_antisym :
    ∀ (xs ys : List (Face × List Card)) (d : Comparison),
      compare_groups_loop (ys.zip xs) (comparison_inverse d) =
        comparison_inverse (compare_groups_loop (xs.zip ys) d) := by
  intro xs
  induction xs with
  | nil => intro ys d; cases ys <;> rfl
  | cons x xs ih =>
    intro ys d
    cases ys with
    | nil => rfl
    | cons y ys =>
      rw [List.zip_cons_cons, List.zip_cons_cons]
      show compare_groups_loop ((y, x) :: ys.zip xs) _ = _
      rw [compare_groups_loop, compare_groups_loop,
        compare_group_items_antisym x y]
      cases compare_group_items x y with
      | GREATER => rfl
      | EQUAL => exact ih ys d
      | LESSER => rfl

theorem compare_cards_loop_antisym :
    ∀ (xs ys : List Card) (d : Comparison),
      compare_cards_loop (ys.zip xs) (comparison_inverse d) =
        comparison_inverse (compare_cards_loop (xs.zip ys) d) := by
  intro xs
  induction xs with
  | nil => intro ys d; cases ys <;> rfl
  | cons x xs ih =>
    intro ys d
    cases ys with
    | nil => rfl
    | cons y ys =>
      rw [List.zip_cons_cons, List.zip_cons_cons,
        compare_cards_loop, compare_cards_loop]
      split_ifs <;> first | rfl | omega | exact ih ys d

theorem compare_by_face_frequency_antisym (A B : List Card) :
    compare_by_face_frequency B A =
      comparison_inverse (compare_by_face_frequency A B) := by
  unfold compare_by_face_frequency
  simp only
  rw [compare_length_antisym (get_groups_by_face A) (get_groups_by_face B)]
  exact compare_groups_loop_antisym _ _ _

theorem compare_by_value_antisym (A B : List Card) :
    compare_by_value B A = comparison_inverse (compare_by_value A B) := by
  unfold compare_by_value
  simp only
  rw [compare_length_antisym A B]
  exact compare_cards_loop_antisym _ _ _

theorem starter_cmp_antisym (sa sb : Face) :
    (if sb = sa then Comparison.EQUAL
     else if is_straight_starter_greater sb sa then Comparison.GREATER
     else Comparison.LESSER) =
      comparison_inverse
        (if sa = sb then Comparison.EQUAL
         else if is_straight_starter_greater sa sb then Comparison.GREATER
         else Comparison.LESSER) := by
  revert sa sb
  decide

theorem compare_by_straight_starter_antisym {A B : List Card}
    (hA : A.length = 5) (hB : B.length = 5) :
    ∃ c, compare_by_straight_starter A B = some c ∧
      compare_by_straight_starter B A = some (comparison_inverse c) := by
  obtain ⟨sa, hsa⟩ := get_most_frequent_starter_some (get_faces_ne_nil hA)
  obtain ⟨sb, hsb⟩ := get_most_frequent_starter_some (get_faces_ne_nil hB)
  refine ⟨if sa = sb then Comparison.EQUAL
    else if is_straight_starter_greater sa sb then Comparison.GREATER
    else Comparison.LESSER, ?_, ?_⟩
  · unfold compare_by_straight_starter
    rw [show REQUIRED_LENGTH = 5 from rfl, hsa, hsb]
  · unfold compare_by_straight_starter
    rw [show REQUIRED_LENGTH = 5 from rfl, hsa, hsb]
    exact congrArg some (starter_cmp_antisym sa sb)

theorem rank_mem_congr {ra rb : Rank} (h : ra.value = rb.value)
    (l : List Rank) : rank_mem ra l = rank_mem rb l := by
  unfold rank_mem
  rw [h]

/-- Dispatch equation of `compare_hands` when both classifications
return. -/
theorem compare_hands_eq {A B : List Card} {ra rb : Rank}
    (hra : get_rank A = some ra) (hrb : get_rank B = some rb) :
    compare_hands A B =
      if ra.value > rb.value then some Comparison.GREATER
      else if ra.value < rb.value then some Comparison.LESSER
      else if rank_mem ra FACE_FREQUENCY_RANKS then
        some (compare_by_face_frequency A B)
      else if rank_mem ra SEQUENTIAL_RANKS then
        compare_by_straight_starter A B
      else some (compare_by_value A B) := by
  unfold compare_hands
  rw [hra, hrb]

/-- Antisymmetry of `compare_hands` on 5-card hands, in existential form:
the two orientations return inverse comparisons (and neither raises). -/
theorem compare_hands_antisym {A B : List Card}
    (hA : A.length = 5) (hB : B.length = 5) :
    ∃ c, compare_hands A B = some c ∧
      compare_hands B A = some (comparison_inverse c) := by
  obtain ⟨ra, hra⟩ := get_rank_len5_some hA
  obtain ⟨rb, hrb⟩ := get_rank_len5_some hB
  rw [compare_hands_eq hra hrb, compare_hands_eq hrb hra]
  rcases Nat.lt_trichotomy ra.value rb.value with h | h | h
  · exact ⟨Comparison.LESSER,
      by rw [if_neg (show ¬ ra.value > rb.value by omega), if_pos h],
      by rw [if_pos (show rb.value > ra.value from h)]; rfl⟩
  · rw [if_neg (show ¬ ra.value > rb.value by omega),
      if_neg (show ¬ ra.value < rb.value by omega),
      if_neg (show ¬ rb.value > ra.value by omega),
      if_neg (show ¬ rb.value < ra.value by omega)]
    rw [rank_mem_congr h FACE_FREQUENCY_RANKS,
      rank_mem_congr h SEQUENTIAL_RANKS]
    by_cases hff : rank_mem rb FACE_FREQUENCY_RANKS = true
    · rw [if_pos hff, if_pos hff]
      exact ⟨compare_by_face_frequency A B, rfl,
        by rw [compare_by_face_frequency_antisym A B]⟩
    · rw [if_neg hff, if_neg hff]
      by_cases hsq : rank_mem rb SEQUENTIAL_RANKS = true
      · rw [if_pos hsq, if_pos hsq]
        exact compare_by_straight_starter_antisym hA hB
      · rw [if_neg hsq, if_neg hsq]
        exact ⟨compare_by_value A B, rfl,
          by rw [compare_by_value_antisym A B]⟩
  · exact ⟨Comparison.GREATER,
      by rw [if_pos (show ra.value > rb.value from h)],
      by rw [if_neg (show ¬ rb.value > ra.value by omega), if_pos h]; rfl⟩

theorem create_sequence_validator_eq (inv : List Face) (cards : List Card) :
    create_sequence_validator inv cards =
      match get_most_frequent_starter_of_sequences_including_faces
          (get_faces cards) cards.length inv with
      | none => none
      | some starter =>
        some (sequence_run_check (get_faces cards) starter cards.length) := rfl

/-! ## Claims -/

/-- C1: for every 5-card hand drawn from the Face×Suit domain, `get_rank`
with the default rank catalog returns the first rank, tested in descending
value order (the catalog's values are 10 down to 1), all of whose
validators hold, and never returns the null rank. -/
theorem claim_C1 :
    DEFAULT_RANKS.map Rank.value = [10, 9, 8, 7, 6, 5, 4, 3, 2, 1] ∧
    ∀ cards : List Card, cards.length = 5 →
      ∃ pre r post, DEFAULT_RANKS = pre ++ r :: post ∧
        (∀ r' ∈ pre, r'.is_rank cards = some false) ∧
        r.is_rank cards = some true ∧
        get_rank cards = some r ∧ r.value ≠ NULL_RANK.value := by
  refine ⟨rfl, ?_⟩
  intro cards h
  obtain ⟨pre, r, post, h1, h2, h3, h4, h5⟩ := get_rank_len5_spec cards h
  exact ⟨pre, r, post, h1, h2, h3, h4, h5⟩

/-- Witness for C1 at a concrete 5-card hand. -/
theorem claim_C1_witness :
    ∃ pre r post, DEFAULT_RANKS = pre ++ r :: post ∧
      (∀ r' ∈ pre, r'.is_rank
        [⟨Face.ACE, Suit.SPADES⟩, ⟨Face.TWO, Suit.HEARTS⟩,
         ⟨Face.THREE, Suit.SPADES⟩, ⟨Face.FOUR, Suit.CLOVERS⟩,
         ⟨Face.FIVE, Suit.DIAMONDS⟩] = some false) ∧
      r.is_rank
        [⟨Face.ACE, Suit.SPADES⟩, ⟨Face.TWO, Suit.HEARTS⟩,
         ⟨Face.THREE, Suit.SPADES⟩, ⟨Face.FOUR, Suit.CLOVERS⟩,
         ⟨Face.FIVE, Suit.DIAMONDS⟩] = some true ∧
      get_rank
        [⟨Face.ACE, Suit.SPADES⟩, ⟨Face.TWO, Suit.HEARTS⟩,
         ⟨Face.THREE, Suit.SPADES⟩, ⟨Face.FOUR, Suit.CLOVERS⟩,
         ⟨Face.FIVE, Suit.DIAMONDS⟩] = some r ∧ r.value ≠ NULL_RANK.value :=
  claim_C1.2
    [⟨Face.ACE, Suit.SPADES⟩, ⟨Face.TWO, Suit.HEARTS⟩,
     ⟨Face.THREE, Suit.SPADES⟩, ⟨Face.FOUR, Suit.CLOVERS⟩,
     ⟨Face.FIVE, Suit.DIAMONDS⟩] rfl

/-- C2: for all 5-card hands A and B, `compare_hands A B` and
`compare_hands B A` are inverses: GREATER iff the flipped call is LESSER,
and EQUAL iff the flipped call is EQUAL. -/
theorem claim_C2 : ∀ A B : List Card, A.length = 5 → B.length = 5 →
    (compare_hands A B = some Comparison.GREATER ↔
      compare_hands B A = some Comparison.LESSER) ∧
    (compare_hands A B = some Comparison.EQUAL ↔
      compare_hands B A = some Comparison.EQUAL) := by
  intro A B hA hB
  obtain ⟨c, h1, h2⟩ := compare_hands_antisym hA hB
  rw [h1, h2]
  cases c <;> simp [comparison_inverse]

/-- Witness for C2 at two concrete 5-card hands. -/
theorem claim_C2_witness :
    (compare_hands
        [⟨Face.KING, Suit.SPADES⟩, ⟨Face.KING, Suit.HEARTS⟩,
         ⟨Face.KING, Suit.CLOVERS⟩, ⟨Face.TWO, Suit.SPADES⟩,
         ⟨Face.TWO, Suit.HEARTS⟩]
        [⟨Face.QUEEN, Suit.SPADES⟩, ⟨Face.QUEEN, Suit.HEARTS⟩,
         ⟨Face.QUEEN, Suit.CLOVERS⟩, ⟨Face.ACE, Suit.SPADES⟩,
         ⟨Face.ACE, Suit.HEARTS⟩] = some Comparison.GREATER ↔
      compare_hands
        [⟨Face.QUEEN, Suit.SPADES⟩, ⟨Face.QUEEN, Suit.HEARTS⟩,
         ⟨Face.QUEEN, Suit.CLOVERS⟩, ⟨Face.ACE, Suit.SPADES⟩,
         ⟨Face.ACE, Suit.HEARTS⟩]
        [⟨Face.KING, Suit.SPADES⟩, ⟨Face.KING, Suit.HEARTS⟩,
         ⟨Face.KING, Suit.CLOVERS⟩, ⟨Face.TWO, Suit.SPADES⟩,
         ⟨Face.TWO, Suit.HEARTS⟩] = some Comparison.LESSER) ∧
    (compare_hands
        [⟨Face.KING, Suit.SPADES⟩, ⟨Face.KING, Suit.HEARTS⟩,
         ⟨Face.KING, Suit.CLOVERS⟩, ⟨Face.TWO, Suit.SPADES⟩,
         ⟨Face.TWO, Suit.HEARTS⟩]
        [⟨Face.QUEEN, Suit.SPADES⟩, ⟨Face.QUEEN, Suit.HEARTS⟩,
         ⟨Face.QUEEN, Suit.CLOVERS⟩, ⟨Face.ACE, Suit.SPADES⟩,
         ⟨Face.ACE, Suit.HEARTS⟩] = some Comparison.EQUAL ↔
      compare_hands
        [⟨Face.QUEEN, Suit.SPADES⟩, ⟨Face.QUEEN, Suit.HEARTS⟩,
         ⟨Face.QUEEN, Suit.CLOVERS⟩, ⟨Face.ACE, Suit.SPADES⟩,
         ⟨Face.ACE, Suit.HEARTS⟩]
        [⟨Face.KING, Suit.SPADES⟩, ⟨Face.KING, Suit.HEARTS⟩,
         ⟨Face.KING, Suit.CLOVERS⟩, ⟨Face.TWO, Suit.SPADES⟩,
         ⟨Face.TWO, Suit.HEARTS⟩] = some Comparison.EQUAL) :=
  claim_C2
    [⟨Face.KING, Suit.SPADES⟩, ⟨Face.KING, Suit.HEARTS⟩,
     ⟨Face.KING, Suit.CLOVERS⟩, ⟨Face.TWO, Suit.SPADES⟩,
     ⟨Face.TWO, Suit.HEARTS⟩]
    [⟨Face.QUEEN, Suit.SPADES⟩, ⟨Face.QUEEN, Suit.HEARTS⟩,
     ⟨Face.QUEEN, Suit.CLOVERS⟩, ⟨Face.ACE, Suit.SPADES⟩,
     ⟨Face.ACE, Suit.HEARTS⟩] rfl rfl

/-- C6: every hand satisfying all of the Straight Flush rank's validators
also satisfies all of the Flush rank's validators, and all of the Straight
rank's validators. -/
theorem claim_C6 : ∀ cards : List Card, cards.length = 5 →
    STRAIGHT_FLUSH.is_rank cards = some true →
    FLUSH.is_rank cards = some true ∧ STRAIGHT.is_rank cards = some true := by
  intro cards _ h
  have h' : run_validators
      [create_length_validator REQUIRED_LENGTH,
       create_sequence_validator INVALID_STRAIGHT_STARTERS,
       create_suit_frequency_validator [(REQUIRED_LENGTH, 1)]] cards =
      some true := h
  obtain ⟨hlen, h2⟩ := run_validators_cons_eq_true.mp h'
  obtain ⟨hseq, h3⟩ := run_validators_cons_eq_true.mp h2
  obtain ⟨hsuit, _⟩ := run_validators_cons_eq_true.mp h3
  constructor
  · show run_validators
      [create_length_validator REQUIRED_LENGTH,
       create_suit_frequency_validator [(REQUIRED_LENGTH, 1)]] cards = some true
    exact run_validators_cons_eq_true.mpr
      ⟨hlen, run_validators_cons_eq_true.mpr ⟨hsuit, rfl⟩⟩
  · show run_validators
      [create_length_validator REQUIRED_LENGTH,
       create_sequence_validator INVALID_STRAIGHT_STARTERS] cards = some true
    exact run_validators_cons_eq_true.mpr
      ⟨hlen, run_validators_cons_eq_true.mpr ⟨hseq, rfl⟩⟩

/-- Witness for C6 at a concrete straight flush. -/
theorem claim_C6_witness :
    FLUSH.is_rank
      [⟨Face.TWO, Suit.SPADES⟩, ⟨Face.THREE, Suit.SPADES⟩,
       ⟨Face.FOUR, Suit.SPADES⟩, ⟨Face.FIVE, Suit.SPADES⟩,
       ⟨Face.SIX, Suit.SPADES⟩] = some true ∧
    STRAIGHT.is_rank
      [⟨Face.TWO, Suit.SPADES⟩, ⟨Face.THREE, Suit.SPADES⟩,
       ⟨Face.FOUR, Suit.SPADES⟩, ⟨Face.FIVE, Suit.SPADES⟩,
       ⟨Face.SIX, Suit.SPADES⟩] = some true :=
  claim_C6
    [⟨Face.TWO, Suit.SPADES⟩, ⟨Face.THREE, Suit.SPADES⟩,
     ⟨Face.FOUR, Suit.SPADES⟩, ⟨Face.FIVE, Suit.SPADES⟩,
     ⟨Face.SIX, Suit.SPADES⟩] rfl rfl

/-- C7 counterexample: on an empty collection the sequence and frequency
computations do NOT return a value: they raise (modelled as `none`,
Python's `ValueError` from `max()` over an empty sequence), contradicting
the claim that each terminates with a result and no exception. -/
theorem claim_C7_counterexample :
    get_most_frequent_starter_of_sequences_including_faces [] 5
      INVALID_STRAIGHT_STARTERS = none ∧
    get_max_face_frequency [] = none ∧
    get_max_suit_frequency [] = none :=
  ⟨rfl, rfl, rfl⟩

/-- C7 amended: on an empty collection these computations raise
`ValueError` (`none`); on any nonempty input each terminates with a
result. -/
theorem claim_C7_amended :
    (∀ faces : List Face, faces ≠ [] →
      ∃ s, get_most_frequent_starter_of_sequences_including_faces faces 5
        INVALID_STRAIGHT_STARTERS = some s) ∧
    (∀ cards : List Card, cards ≠ [] →
      ∃ n, get_max_face_frequency cards = some n) ∧
    (∀ cards : List Card, cards ≠ [] →
      ∃ n, get_max_suit_frequency cards = some n) := by
  refine ⟨fun faces h => get_most_frequent_starter_some h, ?_, ?_⟩
  · intro cards h
    have h1 : get_faces cards ≠ [] := fun hnil => h (by simpa [get_faces] using hnil)
    have h2 : get_groups_by_face cards ≠ [] := fun hnil =>
      firstOcc_ne_nil h1 (by simpa [get_groups_by_face] using hnil)
    have h3 : (get_groups_by_face cards).map (fun g => g.2.length) ≠ [] := by
      simpa using h2
    obtain ⟨m, hm, _⟩ := pymax_some h3
    exact ⟨m, hm⟩
  · intro cards h
    have h1 : get_suits cards ≠ [] := fun hnil => h (by simpa [get_suits] using hnil)
    have h2 : get_groups_by_suit cards ≠ [] := fun hnil =>
      firstOcc_ne_nil h1 (by simpa [get_groups_by_suit] using hnil)
    have h3 : (get_groups_by_suit cards).map (fun g => g.2.length) ≠ [] := by
      simpa using h2
    obtain ⟨m, hm, _⟩ := pymax_some h3
    exact ⟨m, hm⟩

/-- Witness for the amended C7 at concrete nonempty inputs. -/
theorem claim_C7_witness :
    (∃ s, get_most_frequent_starter_of_sequences_including_faces [Face.ACE] 5
      INVALID_STRAIGHT_STARTERS = some s) ∧
    (∃ n, get_max_face_frequency [⟨Face.ACE, Suit.SPADES⟩] = some n) ∧
    (∃ n, get_max_suit_frequency [⟨Face.ACE, Suit.SPADES⟩] = some n) :=
  ⟨claim_C7_amended.1 [Face.ACE] (by simp),
   claim_C7_amended.2.1 [⟨Face.ACE, Suit.SPADES⟩] (by simp),
   claim_C7_amended.2.2 [⟨Face.ACE, Suit.SPADES⟩] (by simp)⟩

/-- C8: `get_next_face` and `get_previous_face` are total and cyclic over
the 13 faces: the successor of Ace is Two, the predecessor of Two is Ace,
and every other face steps to the face whose value is one greater
(respectively one less). Totality is inherent: both are Lean functions
`Face → Face`. -/
theorem claim_C8 :
    get_next_face Face.ACE = Face.TWO ∧
    get_previous_face Face.TWO = Face.ACE ∧
    (∀ f : Face, f ≠ Face.ACE → (get_next_face f).value = f.value + 1) ∧
    (∀ f : Face, f ≠ Face.TWO → (get_previous_face f).value = f.value - 1) := by
  decide

/-- Witness for C8 at concrete faces. -/
theorem claim_C8_witness :
    (get_next_face Face.KING).value = Face.KING.value + 1 ∧
    (get_previous_face Face.THREE).value = Face.THREE.value - 1 :=
  ⟨claim_C8.2.2.1 Face.KING (by decide),
   claim_C8.2.2.2 Face.THREE (by decide)⟩

/-- C9: a rank constructed with no validators accepts every collection of
cards; in particular `NULL_RANK` and `Rank.none` do, and whenever such a
rank is reached in `get_rank`'s iteration (all earlier candidates
rejected the hand), it is returned. -/
theorem claim_C9 :
    (∀ (name : String) (v : Nat) (cards : List Card),
      (Rank.mk name v []).is_rank cards = some true) ∧
    (∀ cards : List Card, NULL_RANK.is_rank cards = some true) ∧
    (∀ cards : List Card, Rank.none.is_rank cards = some true) ∧
    (∀ (pre rest : List Rank) (cards : List Card),
      (∀ r ∈ pre, r.is_rank cards = some false) →
      get_rank_from cards (pre ++ NULL_RANK :: rest) = some NULL_RANK) := by
  refine ⟨fun _ _ _ => rfl, fun _ => rfl, fun _ => rfl, ?_⟩
  intro pre rest cards hpre
  induction pre with
  | nil => exact get_rank_from_cons_true rfl
  | cons r pre ih =>
    rw [List.cons_append,
      get_rank_from_cons_false (hpre r (List.mem_cons_self _ _))]
    exact ih (fun s hs => hpre s (List.mem_cons_of_mem _ hs))

/-- Witness for C9: a validator-less rank accepts the empty hand, and
`get_rank_from` falls through a rejecting candidate to the null rank. -/
theorem claim_C9_witness :
    (Rank.mk "X" 3 []).is_rank [] = some true ∧
    get_rank_from [] ([HIGH] ++ NULL_RANK :: []) = some NULL_RANK :=
  ⟨claim_C9.1 "X" 3 [],
   claim_C9.2.2.2 [HIGH] [] []
     (fun r hr => by
       rw [List.mem_singleton] at hr
       subst hr
       rfl)⟩

/-- C10: straight-starter precedence is a strict total order: greater and
lesser are mutually converse, and for any two faces exactly one of
equality, greater, or lesser holds. -/
theorem claim_C10 : ∀ a b : Face,
    (is_straight_starter_greater a b = true ↔
      is_straight_starter_lesser b a = true) ∧
    ((a = b ∧ is_straight_starter_greater a b = false ∧
        is_straight_starter_lesser a b = false) ∨
     (a ≠ b ∧ is_straight_starter_greater a b = true ∧
        is_straight_starter_lesser a b = false) ∨
     (a ≠ b ∧ is_straight_starter_greater a b = false ∧
        is_straight_starter_lesser a b = true)) := by
  decide

/-- On a 5-element suit list, requiring exactly one suit-group of size 5
is the same as all five suits being equal. -/
theorem suit_freq5_allEq : ∀ s1 s2 s3 s4 s5 : Suit,
    has_required_group [s1, s2, s3, s4, s5] 5 1 =
      decide (s1 = s2 ∧ s2 = s3 ∧ s3 = s4 ∧ s4 = s5) := by
  decide

/-- C3: the hand A-2-3-4-5 with suits not all equal classifies as
Straight; the most-frequent sequence starters of A-2-3-4-5, 2-3-4-5-6 and
10-J-Q-K-A are Ace, Two and Ten, in strictly increasing starter
precedence. -/
theorem claim_C3 :
    (∀ s1 s2 s3 s4 s5 : Suit, ¬(s1 = s2 ∧ s2 = s3 ∧ s3 = s4 ∧ s4 = s5) →
      (get_rank [⟨Face.ACE, s1⟩, ⟨Face.TWO, s2⟩, ⟨Face.THREE, s3⟩,
      ⟨Face.FOUR, s4⟩, ⟨Face.FIVE, s5⟩]).map Rank.value = some STRAIGHT.value) ∧
    get_most_frequent_starter_of_sequences_including_faces
      [Face.ACE, Face.TWO, Face.THREE, Face.FOUR, Face.FIVE] 5
      INVALID_STRAIGHT_STARTERS = some Face.ACE ∧
    get_most_frequent_starter_of_sequences_including_faces
      [Face.TWO, Face.THREE, Face.FOUR, Face.FIVE, Face.SIX] 5
      INVALID_STRAIGHT_STARTERS = some Face.TWO ∧
    get_most_frequent_starter_of_sequences_including_faces
      [Face.TEN, Face.JACK, Face.QUEEN, Face.KING, Face.ACE] 5
      INVALID_STRAIGHT_STARTERS = some Face.TEN ∧
    is_straight_starter_lesser Face.ACE Face.TWO = true ∧
    is_straight_starter_lesser Face.TWO Face.TEN = true := by
  refine ⟨?_, by decide, by decide, by decide, by decide, by decide⟩
  intro s1 s2 s3 s4 s5 h
  have hgm : get_most_frequent_starter_of_sequences_including_faces
      [Face.ACE, Face.TWO, Face.THREE, Face.FOUR, Face.FIVE] 5
      INVALID_STRAIGHT_STARTERS = some Face.ACE := by decide
  have hsuit : has_required_group [s1, s2, s3, s4, s5] 5 1 = false := by
    rw [suit_freq5_allEq]
    exact decide_eq_false h
  have hlv : create_length_validator REQUIRED_LENGTH
      [⟨Face.ACE, s1⟩, ⟨Face.TWO, s2⟩, ⟨Face.THREE, s3⟩,
      ⟨Face.FOUR, s4⟩, ⟨Face.FIVE, s5⟩] = some true := rfl
  have hsv : create_suit_frequency_validator [(REQUIRED_LENGTH, 1)]
      [⟨Face.ACE, s1⟩, ⟨Face.TWO, s2⟩, ⟨Face.THREE, s3⟩,
      ⟨Face.FOUR, s4⟩, ⟨Face.FIVE, s5⟩] = some false := by
    show some (has_required_group [s1, s2, s3, s4, s5] 5 1 && true) =
      some false
    rw [hsuit]
    rfl
  have hseqv : create_sequence_validator INVALID_STRAIGHT_STARTERS
      [⟨Face.ACE, s1⟩, ⟨Face.TWO, s2⟩, ⟨Face.THREE, s3⟩,
      ⟨Face.FOUR, s4⟩, ⟨Face.FIVE, s5⟩] = some true := by
    rw [create_sequence_validator_eq]
    rw [show get_faces [⟨Face.ACE, s1⟩, ⟨Face.TWO, s2⟩, ⟨Face.THREE, s3⟩,
      ⟨Face.FOUR, s4⟩, ⟨Face.FIVE, s5⟩] =
      [Face.ACE, Face.TWO, Face.THREE, Face.FOUR, Face.FIVE] from rfl]
    rw [show ([⟨Face.ACE, s1⟩, ⟨Face.TWO, s2⟩, ⟨Face.THREE, s3⟩,
      ⟨Face.FOUR, s4⟩, ⟨Face.FIVE, s5⟩] : List Card).length = 5 from rfl]
    rw [hgm]
    decide
  have hffv4 : create_face_frequency_validator [(4, 1)]
      [⟨Face.ACE, s1⟩, ⟨Face.TWO, s2⟩, ⟨Face.THREE, s3⟩,
      ⟨Face.FOUR, s4⟩, ⟨Face.FIVE, s5⟩] = some false := by
    show some (has_required_group
      [Face.ACE, Face.TWO, Face.THREE, Face.FOUR, Face.FIVE] 4 1 && true) =
      some false
    decide
  have hffv32 : create_face_frequency_validator [(3, 1), (2, 1)]
      [⟨Face.ACE, s1⟩, ⟨Face.TWO, s2⟩, ⟨Face.THREE, s3⟩,
      ⟨Face.FOUR, s4⟩, ⟨Face.FIVE, s5⟩] = some false := by
    show some (has_required_group
      [Face.ACE, Face.TWO, Face.THREE, Face.FOUR, Face.FIVE] 3 1 &&
      (has_required_group
        [Face.ACE, Face.TWO, Face.THREE, Face.FOUR, Face.FIVE] 2 1 &&
        true)) = some false
    decide
  have hroyal : ROYAL_FLUSH.is_rank [⟨Face.ACE, s1⟩, ⟨Face.TWO, s2⟩, ⟨Face.THREE, s3⟩,
      ⟨Face.FOUR, s4⟩, ⟨Face.FIVE, s5⟩] = some false := by
    show run_validators
      [create_length_validator REQUIRED_LENGTH,
       create_sequence_validator INVALID_STRAIGHT_STARTERS,
       create_suit_frequency_validator [(REQUIRED_LENGTH, 1)],
       create_face_validator ROYAL_FACES] [⟨Face.ACE, s1⟩, ⟨Face.TWO, s2⟩, ⟨Face.THREE, s3⟩,
      ⟨Face.FOUR, s4⟩, ⟨Face.FIVE, s5⟩] = some false
    rw [run_validators_cons_true hlv, run_validators_cons_true hseqv]
    exact run_validators_cons_false hsv
  have hsf : STRAIGHT_FLUSH.is_rank [⟨Face.ACE, s1⟩, ⟨Face.TWO, s2⟩, ⟨Face.THREE, s3⟩,
      ⟨Face.FOUR, s4⟩, ⟨Face.FIVE, s5⟩] = some false := by
    show run_validators
      [create_length_validator REQUIRED_LENGTH,
       create_sequence_validator INVALID_STRAIGHT_STARTERS,
       create_suit_frequency_validator [(REQUIRED_LENGTH, 1)]]
      [⟨Face.ACE, s1⟩, ⟨Face.TWO, s2⟩, ⟨Face.THREE, s3⟩,
      ⟨Face.FOUR, s4⟩, ⟨Face.FIVE, s5⟩] = some false
    rw [run_validators_cons_true hlv, run_validators_cons_true hseqv]
    exact run_validators_cons_false hsv
  have hfour : FOUR_OF_A_KIND.is_rank [⟨Face.ACE, s1⟩, ⟨Face.TWO, s2⟩, ⟨Face.THREE, s3⟩,
      ⟨Face.FOUR, s4⟩, ⟨Face.FIVE, s5⟩] = some false := by
    show run_validators
      [create_length_validator REQUIRED_LENGTH,
       create_face_frequency_validator [(4, 1)]] [⟨Face.ACE, s1⟩, ⟨Face.TWO, s2⟩, ⟨Face.THREE, s3⟩,
      ⟨Face.FOUR, s4⟩, ⟨Face.FIVE, s5⟩] = some false
    rw [run_validators_cons_true hlv]
    exact run_validators_cons_false hffv4
  have hfh : FULL_HOUSE.is_rank [⟨Face.ACE, s1⟩, ⟨Face.TWO, s2⟩, ⟨Face.THREE, s3⟩,
      ⟨Face.FOUR, s4⟩, ⟨Face.FIVE, s5⟩] = some false := by
    show run_validators
      [create_length_validator REQUIRED_LENGTH,
       create_face_frequency_validator [(3, 1), (2, 1)]] [⟨Face.ACE, s1⟩, ⟨Face.TWO, s2⟩, ⟨Face.THREE, s3⟩,
      ⟨Face.FOUR, s4⟩, ⟨Face.FIVE, s5⟩] = some false
    rw [run_validators_cons_true hlv]
    exact run_validators_cons_false hffv32
  have hflush : FLUSH.is_rank [⟨Face.ACE, s1⟩, ⟨Face.TWO, s2⟩, ⟨Face.THREE, s3⟩,
      ⟨Face.FOUR, s4⟩, ⟨Face.FIVE, s5⟩] = some false := by
    show run_validators
      [create_length_validator REQUIRED_LENGTH,
       create_suit_frequency_validator [(REQUIRED_LENGTH, 1)]]
      [⟨Face.ACE, s1⟩, ⟨Face.TWO, s2⟩, ⟨Face.THREE, s3⟩,
      ⟨Face.FOUR, s4⟩, ⟨Face.FIVE, s5⟩] = some false
    rw [run_validators_cons_true hlv]
    exact run_validators_cons_false hsv
  have hstraight : STRAIGHT.is_rank [⟨Face.ACE, s1⟩, ⟨Face.TWO, s2⟩, ⟨Face.THREE, s3⟩,
      ⟨Face.FOUR, s4⟩, ⟨Face.FIVE, s5⟩] = some true := by
    show run_validators
      [create_length_validator REQUIRED_LENGTH,
       create_sequence_validator INVALID_STRAIGHT_STARTERS]
      [⟨Face.ACE, s1⟩, ⟨Face.TWO, s2⟩, ⟨Face.THREE, s3⟩,
      ⟨Face.FOUR, s4⟩, ⟨Face.FIVE, s5⟩] = some true
    rw [run_validators_cons_true hlv, run_validators_cons_true hseqv]
    rfl
  have hget : get_rank [⟨Face.ACE, s1⟩, ⟨Face.TWO, s2⟩, ⟨Face.THREE, s3⟩,
      ⟨Face.FOUR, s4⟩, ⟨Face.FIVE, s5⟩] = some STRAIGHT := by
    show get_rank_from [⟨Face.ACE, s1⟩, ⟨Face.TWO, s2⟩, ⟨Face.THREE, s3⟩,
      ⟨Face.FOUR, s4⟩, ⟨Face.FIVE, s5⟩] DEFAULT_RANKS = some STRAIGHT
    rw [show DEFAULT_RANKS = ROYAL_FLUSH :: STRAIGHT_FLUSH ::
      FOUR_OF_A_KIND :: FULL_HOUSE :: FLUSH :: STRAIGHT ::
      THREE_OF_A_KIND :: TWO_PAIR :: PAIR :: HIGH :: [] from rfl]
    rw [get_rank_from_cons_false hroyal, get_rank_from_cons_false hsf,
      get_rank_from_cons_false hfour, get_rank_from_cons_false hfh,
      get_rank_from_cons_false hflush, get_rank_from_cons_true hstraight]
  rw [hget]
  rfl

/-- Witness for C3's universal part at a concrete mixed-suit assignment. -/
theorem claim_C3_witness :
    (get_rank [⟨Face.ACE, Suit.SPADES⟩, ⟨Face.TWO, Suit.HEARTS⟩,
      ⟨Face.THREE, Suit.SPADES⟩, ⟨Face.FOUR, Suit.SPADES⟩,
      ⟨Face.FIVE, Suit.SPADES⟩]).map Rank.value = some STRAIGHT.value :=
  claim_C3.1 Suit.SPADES Suit.HEARTS Suit.SPADES Suit.SPADES Suit.SPADES
    (by decide)

/-- C4: when two 5-card hands classify to the same frequency-category
rank, `compare_hands` is the pairwise comparison of their face groups in
descending (size, value) order, falling back to comparing the group
counts; and the concrete full houses K-K-K-2-2 vs Q-Q-Q-A-A compare
GREATER. -/
theorem claim_C4 :
    (∀ (A B : List Card) (ra rb : Rank), A.length = 5 → B.length = 5 →
      get_rank A = some ra → get_rank B = some rb →
      rank_mem ra FACE_FREQUENCY_RANKS = true → ra.value = rb.value →
      compare_hands A B = some (compare_groups_loop
        ((get_group_items_by_size_and_value (get_groups_by_face A) true).zip
          (get_group_items_by_size_and_value (get_groups_by_face B) true))
        (compare_length (get_groups_by_face A) (get_groups_by_face B)))) ∧
    compare_hands
      [⟨Face.KING, Suit.SPADES⟩, ⟨Face.KING, Suit.HEARTS⟩,
       ⟨Face.KING, Suit.CLOVERS⟩, ⟨Face.TWO, Suit.SPADES⟩,
       ⟨Face.TWO, Suit.HEARTS⟩]
      [⟨Face.QUEEN, Suit.SPADES⟩, ⟨Face.QUEEN, Suit.HEARTS⟩,
       ⟨Face.QUEEN, Suit.CLOVERS⟩, ⟨Face.ACE, Suit.SPADES⟩,
       ⟨Face.ACE, Suit.HEARTS⟩] = some Comparison.GREATER := by
  constructor
  · intro A B ra rb _ _ hra hrb hmem hval
    rw [compare_hands_eq hra hrb,
      if_neg (show ¬ ra.value > rb.value by omega),
      if_neg (show ¬ ra.value < rb.value by omega), if_pos hmem]
    rfl
  · rfl

/-- Witness for C4's universal part at the two concrete full houses. -/
theorem claim_C4_witness :
    compare_hands
      [⟨Face.KING, Suit.SPADES⟩, ⟨Face.KING, Suit.HEARTS⟩,
       ⟨Face.KING, Suit.CLOVERS⟩, ⟨Face.TWO, Suit.SPADES⟩,
       ⟨Face.TWO, Suit.HEARTS⟩]
      [⟨Face.QUEEN, Suit.SPADES⟩, ⟨Face.QUEEN, Suit.HEARTS⟩,
       ⟨Face.QUEEN, Suit.CLOVERS⟩, ⟨Face.ACE, Suit.SPADES⟩,
       ⟨Face.ACE, Suit.HEARTS⟩] = some (compare_groups_loop
        ((get_group_items_by_size_and_value (get_groups_by_face
          [⟨Face.KING, Suit.SPADES⟩, ⟨Face.KING, Suit.HEARTS⟩,
       ⟨Face.KING, Suit.CLOVERS⟩, ⟨Face.TWO, Suit.SPADES⟩,
       ⟨Face.TWO, Suit.HEARTS⟩]) true).zip
          (get_group_items_by_size_and_value (get_groups_by_face
          [⟨Face.QUEEN, Suit.SPADES⟩, ⟨Face.QUEEN, Suit.HEARTS⟩,
       ⟨Face.QUEEN, Suit.CLOVERS⟩, ⟨Face.ACE, Suit.SPADES⟩,
       ⟨Face.ACE, Suit.HEARTS⟩]) true))
        (compare_length (get_groups_by_face
          [⟨Face.KING, Suit.SPADES⟩, ⟨Face.KING, Suit.HEARTS⟩,
       ⟨Face.KING, Suit.CLOVERS⟩, ⟨Face.TWO, Suit.SPADES⟩,
       ⟨Face.TWO, Suit.HEARTS⟩]) (get_groups_by_face
          [⟨Face.QUEEN, Suit.SPADES⟩, ⟨Face.QUEEN, Suit.HEARTS⟩,
       ⟨Face.QUEEN, Suit.CLOVERS⟩, ⟨Face.ACE, Suit.SPADES⟩,
       ⟨Face.ACE, Suit.HEARTS⟩]))) :=
  claim_C4.1
    [⟨Face.KING, Suit.SPADES⟩, ⟨Face.KING, Suit.HEARTS⟩,
       ⟨Face.KING, Suit.CLOVERS⟩, ⟨Face.TWO, Suit.SPADES⟩,
       ⟨Face.TWO, Suit.HEARTS⟩]
    [⟨Face.QUEEN, Suit.SPADES⟩, ⟨Face.QUEEN, Suit.HEARTS⟩,
       ⟨Face.QUEEN, Suit.CLOVERS⟩, ⟨Face.ACE, Suit.SPADES⟩,
       ⟨Face.ACE, Suit.HEARTS⟩]
    FULL_HOUSE FULL_HOUSE rfl rfl rfl rfl rfl rfl

/-- C5: when two hands classify as Flush, `compare_hands` compares the
hands card-by-card after sorting each descending by raw value, falling
back to comparing lengths (EQUAL for equal-length hands); and the
concrete flushes 2-5-7-9-K spades vs 3-5-7-9-K hearts compare LESSER. -/
theorem claim_C5 :
    (∀ (A B : List Card) (ra rb : Rank),
      get_rank A = some ra → get_rank B = some rb →
      ra.value = FLUSH.value → rb.value = FLUSH.value →
      compare_hands A B = some (compare_cards_loop
        ((insertionSort (fun c d : Card => d.value ≤ c.value) A).zip
          (insertionSort (fun c d : Card => d.value ≤ c.value) B))
        (compare_length A B))) ∧
    (∀ (A : List Card) (B : List Card), A.length = B.length →
      compare_length A B = Comparison.EQUAL) ∧
    compare_hands
      [⟨Face.TWO, Suit.SPADES⟩, ⟨Face.FIVE, Suit.SPADES⟩,
       ⟨Face.SEVEN, Suit.SPADES⟩, ⟨Face.NINE, Suit.SPADES⟩,
       ⟨Face.KING, Suit.SPADES⟩]
      [⟨Face.THREE, Suit.HEARTS⟩, ⟨Face.FIVE, Suit.HEARTS⟩,
       ⟨Face.SEVEN, Suit.HEARTS⟩, ⟨Face.NINE, Suit.HEARTS⟩,
       ⟨Face.KING, Suit.HEARTS⟩] = some Comparison.LESSER := by
  refine ⟨?_, ?_, rfl⟩
  · intro A B ra rb hra hrb hva hvb
    have hva6 : ra.value = 6 := hva
    have hvb6 : rb.value = 6 := hvb
    have hmf : rank_mem ra FACE_FREQUENCY_RANKS = false := by
      rw [rank_mem_congr hva FACE_FREQUENCY_RANKS]
      rfl
    have hms : rank_mem ra SEQUENTIAL_RANKS = false := by
      rw [rank_mem_congr hva SEQUENTIAL_RANKS]
      rfl
    rw [compare_hands_eq hra hrb,
      if_neg (show ¬ ra.value > rb.value by omega),
      if_neg (show ¬ ra.value < rb.value by omega),
      if_neg (show ¬ rank_mem ra FACE_FREQUENCY_RANKS = true by
        rw [hmf]; exact Bool.false_ne_true),
      if_neg (show ¬ rank_mem ra SEQUENTIAL_RANKS = true by
        rw [hms]; exact Bool.false_ne_true)]
    rfl
  · intro A B h
    unfold compare_length
    rw [if_neg (by omega), if_neg (by omega)]

/-- Witness for C5's universal part at the two concrete flushes. -/
theorem claim_C5_witness :
    compare_hands
      [⟨Face.TWO, Suit.SPADES⟩, ⟨Face.FIVE, Suit.SPADES⟩,
       ⟨Face.SEVEN, Suit.SPADES⟩, ⟨Face.NINE, Suit.SPADES⟩,
       ⟨Face.KING, Suit.SPADES⟩]
      [⟨Face.THREE, Suit.HEARTS⟩, ⟨Face.FIVE, Suit.HEARTS⟩,
       ⟨Face.SEVEN, Suit.HEARTS⟩, ⟨Face.NINE, Suit.HEARTS⟩,
       ⟨Face.KING, Suit.HEARTS⟩] = some (compare_cards_loop
        ((insertionSort (fun c d : Card => d.value ≤ c.value)
          [⟨Face.TWO, Suit.SPADES⟩, ⟨Face.FIVE, Suit.SPADES⟩,
       ⟨Face.SEVEN, Suit.SPADES⟩, ⟨Face.NINE, Suit.SPADES⟩,
       ⟨Face.KING, Suit.SPADES⟩]).zip
          (insertionSort (fun c d : Card => d.value ≤ c.value)
          [⟨Face.THREE, Suit.HEARTS⟩, ⟨Face.FIVE, Suit.HEARTS⟩,
       ⟨Face.SEVEN, Suit.HEARTS⟩, ⟨Face.NINE, Suit.HEARTS⟩,
       ⟨Face.KING, Suit.HEARTS⟩]))
        (compare_length
          ([⟨Face.TWO, Suit.SPADES⟩, ⟨Face.FIVE, Suit.SPADES⟩,
       ⟨Face.SEVEN, Suit.SPADES⟩, ⟨Face.NINE, Suit.SPADES⟩,
       ⟨Face.KING, Suit.SPADES⟩] : List Card)
          ([⟨Face.THREE, Suit.HEARTS⟩, ⟨Face.FIVE, Suit.HEARTS⟩,
       ⟨Face.SEVEN, Suit.HEARTS⟩, ⟨Face.NINE, Suit.HEARTS⟩,
       ⟨Face.KING, Suit.HEARTS⟩] : List Card))) :=
  claim_C5.1
    [⟨Face.TWO, Suit.SPADES⟩, ⟨Face.FIVE, Suit.SPADES⟩,
       ⟨Face.SEVEN, Suit.SPADES⟩, ⟨Face.NINE, Suit.SPADES⟩,
       ⟨Face.KING, Suit.SPADES⟩]
    [⟨Face.THREE, Suit.HEARTS⟩, ⟨Face.FIVE, Suit.HEARTS⟩,
       ⟨Face.SEVEN, Suit.HEARTS⟩, ⟨Face.NINE, Suit.HEARTS⟩,
       ⟨Face.KING, Suit.HEARTS⟩]
    FLUSH FLUSH rfl rfl rfl rfl

end PokerConcepts
